import Mathlib

/-!
Verification of the LLAMATUI web-server supervisor (`src/llamatui.py`)
against its natural-language specification.

The Python program is shallowly embedded: the mutable `LlamaTUI` object
becomes an explicit `AppState` record, every key handler of the `run`
loop becomes a pure state-transition function, and interactions with the
outside world (file system, process spawning, signals, the wall clock,
operator keyboard input) are passed in as explicit oracle arguments, so
that each code path of the source is a reachable branch of the embedding.
Python `int` fields are embedded as `Int`; Python lists as `List`.
-/

namespace LlamaTUI

/-- Backend selector; the source stores one of the strings
"CPU", "CUDA", "VULKAN" (field `backend`, cycled at line 571-575). -/
inductive Backend where
  | CPU
  | CUDA
  | VULKAN
deriving DecidableEq, Repr

/-- The persistent configuration dictionary `self.config`
(src/llamatui.py lines 47-59).  String-valued and int-valued fields keep
their Python types (`Int` for Python `int`). -/
structure Config where
  model_dir : String
  backend : Backend
  host_ip : String
  port : String
  allow_lan : Bool
  gpu_layers : Int
  n_threads : Int
  context_size : Int
  schedule_time : String
  schedule_active : Bool
  llama_server_dir : String
deriving DecidableEq, Repr

/-- The child-process argument list built by `start_server`
(src/llamatui.py lines 245-262): `cmd = [bin, "-m", model, "--port", port]`,
then `--host` (configured IP when `allow_lan`, else loopback), then
`-ngl` only for CUDA/VULKAN with `gpu_layers > 0`, then `-t` when
`n_threads > 0`, then `-c` when `context_size > 0`.  Python `str(i)` on an
int is `toString` on `Int`. -/
def buildCmd (binPath modelPath : String) (cfg : Config) : List String :=
  [binPath, "-m", modelPath, "--port", cfg.port]
    ++ (if cfg.allow_lan then ["--host", cfg.host_ip] else ["--host", "127.0.0.1"])
    ++ (if (cfg.backend = Backend.CUDA ∨ cfg.backend = Backend.VULKAN) ∧ 0 < cfg.gpu_layers
        then ["-ngl", toString cfg.gpu_layers] else [])
    ++ (if 0 < cfg.n_threads then ["-t", toString cfg.n_threads] else [])
    ++ (if 0 < cfg.context_size then ["-c", toString cfg.context_size] else [])

/-- Every character that `Nat.digitChar` can produce is a digit or letter,
never a dash. -/
theorem digitChar_ne_dash (m : Nat) : Nat.digitChar m ≠ '-' := by
  rcases lt_or_le m 16 with h | h
  · interval_cases m <;> decide
  · have hs : Nat.digitChar m = '*' := by
      simp only [Nat.digitChar]
      repeat rw [if_neg (by omega)]
    rw [hs]; decide

/-- Characters accumulated by `Nat.toDigitsCore` come from the seed list or
from `Nat.digitChar`. -/
theorem mem_toDigitsCore (b : Nat) (fuel : Nat) :
    ∀ (n : Nat) (ds : List Char) (c : Char), c ∈ Nat.toDigitsCore b fuel n ds →
       c ∈ ds ∨ ∃ m, c = Nat.digitChar m := by
  induction fuel with
  | zero => intro n ds c hc; simp [Nat.toDigitsCore] at hc; exact Or.inl hc
  | succ f ih =>
      intro n ds c hc
      unfold Nat.toDigitsCore at hc
      dsimp only at hc
      split at hc
      · rcases List.mem_cons.mp hc with h | h
        · exact Or.inr ⟨n % b, h⟩
        · exact Or.inl h
      · rcases ih (n / b) (Nat.digitChar (n % b) :: ds) c hc with h | h
        · rcases List.mem_cons.mp h with h2 | h2
          · exact Or.inr ⟨n % b, h2⟩
          · exact Or.inl h2
        · exact Or.inr h

/-- A decimal numeral never contains a dash. -/
theorem dash_not_mem_natRepr (n : Nat) : '-' ∉ (Nat.repr n).data := by
  intro hmem
  have hdata : (Nat.repr n).data = Nat.toDigitsCore 10 (n + 1) n [] := rfl
  rw [hdata] at hmem
  have h := mem_toDigitsCore 10 (n + 1) n [] '-' hmem
  rcases h with h | ⟨m, hm⟩
  · simp at h
  · exact digitChar_ne_dash m hm.symm

/-- Python `str(i)` for a positive int starts with a digit, so it differs
from any string whose characters include a dash. -/
theorem toString_int_pos_ne (i : Int) (hi : 0 < i) (f : String)
    (hf : '-' ∈ f.data) : toString i ≠ f := by
  intro he
  obtain ⟨n, rfl⟩ : ∃ n : Nat, i = Int.ofNat n := ⟨i.toNat, (Int.toNat_of_nonneg (le_of_lt hi)).symm⟩
  have : toString (Int.ofNat n) = Nat.repr n := rfl
  rw [this] at he
  exact dash_not_mem_natRepr n (he ▸ hf)

/-- List membership distributes over a two-branch conditional. -/
theorem mem_ite_cond {α : Type} (c : Prop) [Decidable c] (a b : List α) (s : α) :
    s ∈ (if c then a else b) ↔ ((c ∧ s ∈ a) ∨ (¬ c ∧ s ∈ b)) := by
  split <;> simp [*]

/-- List membership in a conditional whose negative branch is empty. -/
theorem mem_ite_nil {α : Type} (c : Prop) [Decidable c] (a : List α) (s : α) :
    s ∈ (if c then a else ([] : List α)) ↔ (c ∧ s ∈ a) := by
  split <;> simp [*]

/-- Membership in the built argument list, fully characterized by the
configuration's branch conditions. -/
theorem mem_buildCmd (cfg : Config) (bin model s : String) :
    s ∈ buildCmd bin model cfg ↔
      (s = bin ∨ s = "-m" ∨ s = model ∨ s = "--port" ∨ s = cfg.port
        ∨ (cfg.allow_lan = true ∧ (s = "--host" ∨ s = cfg.host_ip))
        ∨ (cfg.allow_lan = false ∧ (s = "--host" ∨ s = "127.0.0.1"))
        ∨ (((cfg.backend = Backend.CUDA ∨ cfg.backend = Backend.VULKAN) ∧ 0 < cfg.gpu_layers)
            ∧ (s = "-ngl" ∨ s = toString cfg.gpu_layers))
        ∨ (0 < cfg.n_threads ∧ (s = "-t" ∨ s = toString cfg.n_threads))
        ∨ (0 < cfg.context_size ∧ (s = "-c" ∨ s = toString cfg.context_size))) := by
  unfold buildCmd
  simp only [List.mem_append, List.mem_cons, List.not_mem_nil, mem_ite_cond,
    and_false, or_false, Bool.not_eq_true, or_assoc]

/-- C1: the child-process argument list built by `start_server` carries
`--host <configured IP>` exactly when `allow_lan` is set and
`--host 127.0.0.1` otherwise; it carries the pair `-ngl <gpu_layers>` iff
the backend is CUDA or VULKAN and the layer count is positive; it carries
`-t <n_threads>` iff the thread count is positive; and it carries
`-c <context_size>` iff the context size is positive.  The hypotheses only
rule out the free-form string fields colliding with the literal flag
tokens. -/
theorem c1_start_cmd_flags (cfg : Config) (bin model : String)
    (hb1 : bin ≠ "-ngl") (hb2 : bin ≠ "-t") (hb3 : bin ≠ "-c")
    (hm1 : model ≠ "-ngl") (hm2 : model ≠ "-t") (hm3 : model ≠ "-c")
    (hp1 : cfg.port ≠ "-ngl") (hp2 : cfg.port ≠ "-t") (hp3 : cfg.port ≠ "-c")
    (hh1 : cfg.host_ip ≠ "-ngl") (hh2 : cfg.host_ip ≠ "-t") (hh3 : cfg.host_ip ≠ "-c") :
    (cfg.allow_lan = true →
        ∃ l r, buildCmd bin model cfg = l ++ ["--host", cfg.host_ip] ++ r)
    ∧ (cfg.allow_lan = false →
        ∃ l r, buildCmd bin model cfg = l ++ ["--host", "127.0.0.1"] ++ r)
    ∧ ((∃ l r, buildCmd bin model cfg = l ++ ["-ngl", toString cfg.gpu_layers] ++ r) ↔
        (cfg.backend = Backend.CUDA ∨ cfg.backend = Backend.VULKAN) ∧ 0 < cfg.gpu_layers)
    ∧ ((∃ l r, buildCmd bin model cfg = l ++ ["-t", toString cfg.n_threads] ++ r) ↔
        0 < cfg.n_threads)
    ∧ ((∃ l r, buildCmd bin model cfg = l ++ ["-c", toString cfg.context_size] ++ r) ↔
        0 < cfg.context_size) := by
  have memNgl : "-ngl" ∈ buildCmd bin model cfg →
      (cfg.backend = Backend.CUDA ∨ cfg.backend = Backend.VULKAN) ∧ 0 < cfg.gpu_layers := by
    intro hmem
    rcases (mem_buildCmd cfg bin model "-ngl").mp hmem with
      h | h | h | h | h | ⟨_, h | h⟩ | ⟨_, h | h⟩ | ⟨hcond, _⟩ | ⟨hpos, h | h⟩ | ⟨hpos, h | h⟩
    · exact absurd h.symm hb1
    · exact absurd h (by decide)
    · exact absurd h.symm hm1
    · exact absurd h (by decide)
    · exact absurd h.symm hp1
    · exact absurd h (by decide)
    · exact absurd h.symm hh1
    · exact absurd h (by decide)
    · exact absurd h (by decide)
    · exact hcond
    · exact absurd h (by decide)
    · exact absurd h.symm (toString_int_pos_ne _ hpos _ (by decide))
    · exact absurd h (by decide)
    · exact absurd h.symm (toString_int_pos_ne _ hpos _ (by decide))
  have memT : "-t" ∈ buildCmd bin model cfg → 0 < cfg.n_threads := by
    intro hmem
    rcases (mem_buildCmd cfg bin model "-t").mp hmem with
      h | h | h | h | h | ⟨_, h | h⟩ | ⟨_, h | h⟩ | ⟨hcond, h | h⟩ | ⟨hpos, _⟩ | ⟨hpos, h | h⟩
    · exact absurd h.symm hb2
    · exact absurd h (by decide)
    · exact absurd h.symm hm2
    · exact absurd h (by decide)
    · exact absurd h.symm hp2
    · exact absurd h (by decide)
    · exact absurd h.symm hh2
    · exact absurd h (by decide)
    · exact absurd h (by decide)
    · exact absurd h (by decide)
    · exact absurd h.symm (toString_int_pos_ne _ hcond.2 _ (by decide))
    · exact hpos
    · exact absurd h (by decide)
    · exact absurd h.symm (toString_int_pos_ne _ hpos _ (by decide))
  have memC : "-c" ∈ buildCmd bin model cfg → 0 < cfg.context_size := by
    intro hmem
    rcases (mem_buildCmd cfg bin model "-c").mp hmem with
      h | h | h | h | h | ⟨_, h | h⟩ | ⟨_, h | h⟩ | ⟨hcond, h | h⟩ | ⟨hpos, h | h⟩ | ⟨hcs, _⟩
    · exact absurd h.symm hb3
    · exact absurd h (by decide)
    · exact absurd h.symm hm3
    · exact absurd h (by decide)
    · exact absurd h.symm hp3
    · exact absurd h (by decide)
    · exact absurd h.symm hh3
    · exact absurd h (by decide)
    · exact absurd h (by decide)
    · exact absurd h (by decide)
    · exact absurd h.symm (toString_int_pos_ne _ hcond.2 _ (by decide))
    · exact absurd h (by decide)
    · exact absurd h.symm (toString_int_pos_ne _ hpos _ (by decide))
    · exact hcs
  refine ⟨?_, ?_, ⟨?_, ?_⟩, ⟨?_, ?_⟩, ⟨?_, ?_⟩⟩
  · intro hl
    refine ⟨[bin, "-m", model, "--port", cfg.port],
      (if (cfg.backend = Backend.CUDA ∨ cfg.backend = Backend.VULKAN) ∧ 0 < cfg.gpu_layers
          then ["-ngl", toString cfg.gpu_layers] else [])
        ++ (if 0 < cfg.n_threads then ["-t", toString cfg.n_threads] else [])
        ++ (if 0 < cfg.context_size then ["-c", toString cfg.context_size] else []), ?_⟩
    simp [buildCmd, hl]
  · intro hl
    refine ⟨[bin, "-m", model, "--port", cfg.port],
      (if (cfg.backend = Backend.CUDA ∨ cfg.backend = Backend.VULKAN) ∧ 0 < cfg.gpu_layers
          then ["-ngl", toString cfg.gpu_layers] else [])
        ++ (if 0 < cfg.n_threads then ["-t", toString cfg.n_threads] else [])
        ++ (if 0 < cfg.context_size then ["-c", toString cfg.context_size] else []), ?_⟩
    simp [buildCmd, hl]
  · rintro ⟨l, r, he⟩
    exact memNgl (by rw [he]; simp)
  · intro hcond
    refine ⟨[bin, "-m", model, "--port", cfg.port]
        ++ (if cfg.allow_lan then ["--host", cfg.host_ip] else ["--host", "127.0.0.1"]),
      (if 0 < cfg.n_threads then ["-t", toString cfg.n_threads] else [])
        ++ (if 0 < cfg.context_size then ["-c", toString cfg.context_size] else []), ?_⟩
    simp [buildCmd, if_pos hcond]
  · rintro ⟨l, r, he⟩
    exact memT (by rw [he]; simp)
  · intro hpos
    refine ⟨[bin, "-m", model, "--port", cfg.port]
        ++ (if cfg.allow_lan then ["--host", cfg.host_ip] else ["--host", "127.0.0.1"])
        ++ (if (cfg.backend = Backend.CUDA ∨ cfg.backend = Backend.VULKAN) ∧ 0 < cfg.gpu_layers
            then ["-ngl", toString cfg.gpu_layers] else []),
      (if 0 < cfg.context_size then ["-c", toString cfg.context_size] else []), ?_⟩
    simp [buildCmd, if_pos hpos]
  · rintro ⟨l, r, he⟩
    exact memC (by rw [he]; simp)
  · intro hpos
    refine ⟨[bin, "-m", model, "--port", cfg.port]
        ++ (if cfg.allow_lan then ["--host", cfg.host_ip] else ["--host", "127.0.0.1"])
        ++ (if (cfg.backend = Backend.CUDA ∨ cfg.backend = Backend.VULKAN) ∧ 0 < cfg.gpu_layers
            then ["-ngl", toString cfg.gpu_layers] else [])
        ++ (if 0 < cfg.n_threads then ["-t", toString cfg.n_threads] else []), [], ?_⟩
    simp [buildCmd, if_pos hpos]

/-- A sample configuration used to witness the hypotheses of the command
construction theorem on concrete data. -/
def cfgSample : Config :=
  { model_dir := "/models"
    backend := Backend.CUDA
    host_ip := "192.168.1.50"
    port := "8080"
    allow_lan := false
    gpu_layers := 8
    n_threads := 4
    context_size := 4096
    schedule_time := ""
    schedule_active := false
    llama_server_dir := "/opt/llama" }

/-- C1 witness: the command-construction theorem applied to a concrete
configuration (CUDA backend, 8 GPU layers, LAN disabled), with every
non-collision hypothesis discharged by computation. -/
theorem c1_start_cmd_flags_witness :
    (cfgSample.allow_lan = true →
        ∃ l r, buildCmd "/opt/llama/llama-server" "/models/a.gguf" cfgSample
          = l ++ ["--host", cfgSample.host_ip] ++ r)
    ∧ (cfgSample.allow_lan = false →
        ∃ l r, buildCmd "/opt/llama/llama-server" "/models/a.gguf" cfgSample
          = l ++ ["--host", "127.0.0.1"] ++ r)
    ∧ ((∃ l r, buildCmd "/opt/llama/llama-server" "/models/a.gguf" cfgSample
          = l ++ ["-ngl", toString cfgSample.gpu_layers] ++ r) ↔
        (cfgSample.backend = Backend.CUDA ∨ cfgSample.backend = Backend.VULKAN)
          ∧ 0 < cfgSample.gpu_layers)
    ∧ ((∃ l r, buildCmd "/opt/llama/llama-server" "/models/a.gguf" cfgSample
          = l ++ ["-t", toString cfgSample.n_threads] ++ r) ↔ 0 < cfgSample.n_threads)
    ∧ ((∃ l r, buildCmd "/opt/llama/llama-server" "/models/a.gguf" cfgSample
          = l ++ ["-c", toString cfgSample.context_size] ++ r) ↔ 0 < cfgSample.context_size) :=
  c1_start_cmd_flags cfgSample "/opt/llama/llama-server" "/models/a.gguf"
    (by decide) (by decide) (by decide) (by decide) (by decide) (by decide)
    (by decide) (by decide) (by decide) (by decide) (by decide) (by decide)

/-! ## Log Capture (`_log_reader_thread`, src/llamatui.py lines 194-204) -/

/-- The buffer cap `self.log_max_lines` (line 40). -/
def log_max_lines : Nat := 1000

/-- Python `str.strip()` whitespace test for the characters that occur in
ASCII text (space, tab, newline, vertical tab, form feed, carriage
return). -/
def pyIsSpace (c : Char) : Bool :=
  c = ' ' ∨ c = '\t' ∨ c = '\n' ∨ c = '\x0b' ∨ c = '\x0c' ∨ c = '\r'

/-- Python `str.strip()`: drop whitespace from both ends. -/
def pyStrip (s : String) : String :=
  ⟨((s.data.dropWhile pyIsSpace).reverse.dropWhile pyIsSpace).reverse⟩

/-- One append performed by the log reader once a nonempty stripped line is
in hand (lines 200-202): push the line, then `pop(0)` when the length
exceeds the cap. -/
def logBufferPush (buf : List String) (s : String) : List String :=
  let b := buf ++ [s]
  if log_max_lines < b.length then b.tail else b

/-- One full iteration of the reader loop body on a decoded line (lines
198-202): strip it; append only when the stripped line is nonempty. -/
def logReaderStep (buf : List String) (decoded : String) : List String :=
  let s := pyStrip decoded
  if s = "" then buf else logBufferPush buf s

/-- The whole reader task over the sequence of decoded lines drawn from the
child's diagnostic stream, starting from the empty buffer installed by
`start_server` (line 273).  `decode` stands for the external best-effort
byte decoding `line.decode(..., errors=\x27replace\x27)`, which is total. -/
def logReaderThread {β : Type} (decode : β → String) (rawLines : List β) : List String :=
  rawLines.foldl (fun buf l => logReaderStep buf (decode l)) []

/-- A push never grows the buffer beyond the cap, starting from any buffer
already within the cap. -/
theorem logBufferPush_le (buf : List String) (s : String)
    (h : buf.length ≤ log_max_lines) : (logBufferPush buf s).length ≤ log_max_lines := by
  unfold logBufferPush
  dsimp only
  split
  · rename_i hgt
    simp only [List.length_tail, List.length_append, List.length_singleton]
    omega
  · rename_i hle
    simp only [List.length_append, List.length_singleton] at *
    omega

/-- A reader step never grows the buffer beyond the cap. -/
theorem logReaderStep_le (buf : List String) (s : String)
    (h : buf.length ≤ log_max_lines) : (logReaderStep buf s).length ≤ log_max_lines := by
  unfold logReaderStep
  dsimp only
  split
  · exact h
  · exact logBufferPush_le buf _ h

/-! ## Data model: files and the mutable TUI state -/

/-- A discovered model artifact: `f.name` (basename), `str(f)` and
`str(f.resolve())` for a `pathlib.Path` entry of the directory glob. -/
structure ModelFile where
  name : String
  path : String
  resolvedPath : String
deriving DecidableEq, Repr

/-- The mutable state of the `LlamaTUI` object that the claims are about:
the supervisor handle (`server_process`, modelled by the child pid),
the running model path, the log buffer, the modal view flags, the
configuration record, and the file-list UI cursor state
(src/llamatui.py lines 30-77). -/
structure AppState where
  running : Bool
  server_process : Option Int
  running_model_path : Option String
  log_buffer : List String
  show_log : Bool
  show_nvidia_smi : Bool
  config : Config
  active_field : Int
  selected_file_idx : Int
  file_offset : Int
  files : List ModelFile
  msg_log : String
deriving Repr

/-- Python list indexing `l[i]` on an int: negative indices count from the
end; out-of-range raises, modelled as `none`. -/
def pyIndex {α : Type} (l : List α) (i : Int) : Option α :=
  let j := if i < 0 then (l.length : Int) + i else i
  if 0 ≤ j ∧ j < l.length then l[j.toNat]? else none

/-- Python `os.path.join(d, name)` for a non-absolute `name`. -/
def osPathJoin (d name : String) : String :=
  if d = "" then name
  else if d.endsWith "/" then d ++ name
  else d ++ "/" ++ name

/-- The server binary name `LLAMA_SERVER_BIN` (line 19). -/
def LLAMA_SERVER_BIN : String := "llama-server"

/-- The curses line-edit prompt `input_string` (lines 294-311): the typed
text, stripped, is returned; an empty submission (or a read/decode error)
keeps the supplied default.  `raw` is the decoded keyboard input. -/
def input_string (raw default_val : String) : String :=
  let box := pyStrip raw
  if box = "" then default_val else box

/-- ## Model Registry: `refresh_file_list` (lines 145-153).

The file-system interaction is the oracle `listing`: `none` when
`path.exists() and path.is_dir()` is false, otherwise the glob's regular
`*.gguf` entries.  The source first clears `self.files = []`, then on
success stores the glob sorted by `f.name` and resets both cursor and
scroll; on failure only the error message is set — on top of the already
cleared list. -/
def refresh_file_list (st : AppState) (listing : Option (List ModelFile)) : AppState :=
  let st0 := { st with files := [] }
  match listing with
  | some found =>
      { st0 with
          files := (found.mergeSort (fun a b => a.name ≤ b.name))
          selected_file_idx := 0
          file_offset := 0 }
  | none =>
      { st0 with msg_log := "Error: Directory not found: " ++ st.config.model_dir }

/-- ## Process Supervisor: `kill_server` (lines 206-229).

`ok1` is the oracle for the process-group path (`os.killpg` +
`wait(timeout=5)` both succeed); `ok2` for the fallback
(`terminate()` + `wait(timeout=5)`); `err` is the text of the exception
caught on the first path.  Either successful path clears the handle, the
running model path and the log buffer before returning; if both fail the
state is returned untouched with the error message. -/
def kill_server (st : AppState) (ok1 ok2 : Bool) (err : String) : AppState × String :=
  match st.server_process with
  | none => (st, "No server running.")
  | some _ =>
      if ok1 then
        ({ st with server_process := none, running_model_path := none, log_buffer := [] },
         "Server stopped and cache cleared.")
      else if ok2 then
        ({ st with server_process := none, running_model_path := none, log_buffer := [] },
         "Server stopped (fallback).")
      else
        (st, "Error stopping: " ++ err)

/-- ## Process Supervisor: `start_server` (lines 231-281).

`binOk` is the oracle for `os.path.exists(p) and os.path.isfile(p)`;
`spawn` is the oracle for `subprocess.Popen` (`none` = raised, `some pid`
= spawned child).  The overall `none` result models the uncaught
`IndexError` of `self.files[self.selected_file_idx]` at line 242, which
would abort the program; the reachability theorem shows it never fires. -/
def start_server (st : AppState) (binOk : Bool) (spawn : Option Int) :
    Option (AppState × String) :=
  if st.server_process.isSome then
    some (st, "Server already running. Press \x27K\x27 first.")
  else if st.files = [] then
    some (st, "No models found in current directory.")
  else if !binOk then
    some (st, "Error: \x27"
      ++ osPathJoin st.config.llama_server_dir LLAMA_SERVER_BIN
      ++ "\x27 not found or is not a file.")
  else
    match pyIndex st.files st.selected_file_idx with
    | none => none
    | some f =>
        match spawn with
        | none =>
            some (st, "Error: "
              ++ osPathJoin st.config.llama_server_dir LLAMA_SERVER_BIN
              ++ " binary not found.")
        | some pid =>
            some ({ st with
                      server_process := some pid
                      log_buffer := []
                      running_model_path := some f.path },
              "SERVING: " ++ f.name ++ " - Press \x27V\x27 to view log.")

/-! ## Schedule time validation (`datetime.datetime.strptime(t, "%H:%M")`,
line 636).  Python compiles the format to the pattern
`(2[0-3]|[0-1]\d|\d):([0-5]\d|\d)` and demands that the whole string be
consumed; acceptance is the union over the alternatives.  Digits are
modelled as the ASCII digit class. -/

/-- ASCII digit test for the `\d` class. -/
def isAsciiDigit (c : Char) : Bool := '0' ≤ c ∧ c ≤ '9'

/-- The minute tail `([0-5]\d|\d)` consuming the whole remainder. -/
def hmMinute : List Char → Bool
  | [a, b] => ('0' ≤ a ∧ a ≤ '5') ∧ isAsciiDigit b
  | [a] => isAsciiDigit a
  | _ => false

/-- The two-character hour alternatives `2[0-3]` and `[0-1]\d`. -/
def hmHour2 (c1 c2 : Char) : Bool :=
  (c1 = '2' ∧ '0' ≤ c2 ∧ c2 ≤ '3') ∨ ((c1 = '0' ∨ c1 = '1') ∧ isAsciiDigit c2)

/-- Whether `strptime(s, "%H:%M")` succeeds. -/
def hmValid (s : String) : Bool :=
  (match s.data with
   | c1 :: c2 :: ':' :: rest => hmHour2 c1 c2 && hmMinute rest
   | _ => false)
  || (match s.data with
      | c1 :: ':' :: rest => isAsciiDigit c1 && hmMinute rest
      | _ => false)

/-- ## Schedule toggle handler (`run`, lines 628-642).

Disabling is a plain flip; enabling prompts for a time (default
`08:00`), validates it, and only on success stores it and activates. -/
def schedule_toggle (st : AppState) (raw : String) : AppState :=
  if st.config.schedule_active then
    { st with
        config := { st.config with schedule_active := false }
        msg_log := "Schedule disabled." }
  else
    let t := input_string raw "08:00"
    if hmValid t then
      { st with
          config := { st.config with schedule_time := t, schedule_active := true }
          msg_log := "Scheduled for " ++ t }
    else
      { st with msg_log := "Invalid time format. Use HH:MM" }

/-- A sample discovered model file. -/
def mfA : ModelFile :=
  { name := "a.gguf", path := "/models/a.gguf", resolvedPath := "/models/a.gguf" }

/-- A sample idle state (no child running, one model discovered). -/
def stSample : AppState :=
  { running := true
    server_process := none
    running_model_path := none
    log_buffer := []
    show_log := false
    show_nvidia_smi := false
    config := cfgSample
    active_field := 0
    selected_file_idx := 0
    file_offset := 0
    files := [mfA]
    msg_log := "" }

/-- The sample state with a child process running. -/
def stRunning : AppState :=
  { stSample with
      server_process := some 4242
      running_model_path := some "/models/a.gguf"
      log_buffer := ["llama_model_load: loading"] }

/-- C2 counterexample: refreshing on a missing directory does NOT leave the
prior model list unchanged — the source clears `self.files = []` at line
147 before the existence check, so the nonempty prior list comes out
empty. -/
theorem c2_counterexample :
    (refresh_file_list stSample none).files = [] ∧ stSample.files ≠ [] := by
  decide

/-- C2 amended: refreshing on a directory that does not exist (or is not a
directory) reports the error message, clears the model list to empty, and
leaves the selection cursor, the scroll offset and all remaining state
unchanged. -/
theorem c2_refresh_missing_dir (st : AppState) :
    (refresh_file_list st none).files = []
    ∧ (refresh_file_list st none).selected_file_idx = st.selected_file_idx
    ∧ (refresh_file_list st none).file_offset = st.file_offset
    ∧ (refresh_file_list st none).msg_log
        = "Error: Directory not found: " ++ st.config.model_dir
    ∧ (refresh_file_list st none).config = st.config
    ∧ (refresh_file_list st none).server_process = st.server_process
    ∧ (refresh_file_list st none).log_buffer = st.log_buffer :=
  ⟨rfl, rfl, rfl, rfl, rfl, rfl, rfl⟩

/-- C4: calling `start_server` while a child is already running returns the
"already running" error and the state completely unchanged — no second
instance, no touched handle, model path or log buffer. -/
theorem c4_start_while_running (st : AppState) (binOk : Bool) (spawn : Option Int)
    (h : st.server_process.isSome) :
    start_server st binOk spawn
      = some (st, "Server already running. Press \x27K\x27 first.") := by
  unfold start_server
  rw [if_pos h]

/-- C4 witness: the already-running rejection on a concrete running state. -/
theorem c4_start_while_running_witness :
    start_server stRunning true (some 5)
      = some (stRunning, "Server already running. Press \x27K\x27 first.") :=
  c4_start_while_running stRunning true (some 5) (by decide)

/-- C5: whenever a child is running, `kill_server` by either termination
path (group signal `ok1`, or the fallback `ok2`) clears the handle, the
running model path and the log buffer; only when both paths fail does it
surface the error, and then the running state is left untouched. -/
theorem c5_stop_clears_state (st : AppState) (ok1 ok2 : Bool) (err : String)
    (h : st.server_process.isSome) :
    (ok1 = true ∨ ok2 = true →
        (kill_server st ok1 ok2 err).1.server_process = none
        ∧ (kill_server st ok1 ok2 err).1.running_model_path = none
        ∧ (kill_server st ok1 ok2 err).1.log_buffer = [])
    ∧ (ok1 = false → ok2 = false →
        kill_server st ok1 ok2 err = (st, "Error stopping: " ++ err)) := by
  obtain ⟨pid, hp⟩ := Option.isSome_iff_exists.mp h
  cases ok1 <;> cases ok2 <;> simp [kill_server, hp]

/-- C5 witness: a concrete stop through the group-signal path clears the
three shared fields, and a concrete doubly-failing stop returns the error
with the state untouched. -/
theorem c5_stop_clears_state_witness :
    ((kill_server stRunning true false "boom").1.server_process = none
      ∧ (kill_server stRunning true false "boom").1.running_model_path = none
      ∧ (kill_server stRunning true false "boom").1.log_buffer = [])
    ∧ kill_server stRunning false false "boom" = (stRunning, "Error stopping: boom") :=
  ⟨(c5_stop_clears_state stRunning true false "boom" (by decide)).1 (Or.inl rfl),
   (c5_stop_clears_state stRunning false false "boom" (by decide)).2 rfl rfl⟩

/-- C6: calling `kill_server` when no child is running is a no-op success:
it returns the "No server running." message and the state unchanged, on
every oracle outcome (so it can never throw). -/
theorem c6_stop_when_not_running (st : AppState) (ok1 ok2 : Bool) (err : String)
    (h : st.server_process = none) :
    kill_server st ok1 ok2 err = (st, "No server running.") := by
  unfold kill_server
  rw [h]

/-- C6 witness: the no-op stop on the concrete idle state. -/
theorem c6_stop_when_not_running_witness :
    kill_server stSample true false "x" = (stSample, "No server running.") :=
  c6_stop_when_not_running stSample true false "x" rfl

/-- C7: with the schedule inactive, the schedule toggle validates the
prompted time string (after the empty-input-keeps-default rule) against
the `strptime` "HH:MM" grammar: a rejected string leaves the schedule
inactive and the stored time unchanged and reports the validation error;
an accepted string is stored and activates the schedule.  In particular
"25:61" is rejected and "08:00" accepted. -/
theorem c7_schedule_validation (st : AppState) (raw : String)
    (h : st.config.schedule_active = false) :
    (hmValid (input_string raw "08:00") = false →
        (schedule_toggle st raw).config.schedule_active = false
        ∧ (schedule_toggle st raw).config.schedule_time = st.config.schedule_time
        ∧ (schedule_toggle st raw).msg_log = "Invalid time format. Use HH:MM")
    ∧ (hmValid (input_string raw "08:00") = true →
        (schedule_toggle st raw).config.schedule_time = input_string raw "08:00"
        ∧ (schedule_toggle st raw).config.schedule_active = true
        ∧ (schedule_toggle st raw).msg_log = "Scheduled for " ++ input_string raw "08:00")
    ∧ hmValid "25:61" = false ∧ hmValid "08:00" = true := by
  refine ⟨?_, ?_, by decide, by decide⟩
  · intro hv
    simp [schedule_toggle, h, hv]
  · intro hv
    simp [schedule_toggle, h, hv]

/-- C7 witness: the concrete rejection of "25:61" and acceptance of
"08:00" on the sample idle state. -/
theorem c7_schedule_validation_witness :
    ((schedule_toggle stSample "25:61").config.schedule_active = false
      ∧ (schedule_toggle stSample "25:61").config.schedule_time
          = stSample.config.schedule_time
      ∧ (schedule_toggle stSample "25:61").msg_log = "Invalid time format. Use HH:MM")
    ∧ ((schedule_toggle stSample "08:00").config.schedule_time
          = input_string "08:00" "08:00"
      ∧ (schedule_toggle stSample "08:00").config.schedule_active = true
      ∧ (schedule_toggle stSample "08:00").msg_log
          = "Scheduled for " ++ input_string "08:00" "08:00") :=
  ⟨(c7_schedule_validation stSample "25:61" (by decide)).1 (by decide),
   (c7_schedule_validation stSample "08:00" (by decide)).2.1 (by decide)⟩

/-- The reader invariant holds across a whole fold from any buffer within
the cap. -/
theorem foldl_logReaderStep_le {β : Type} (decode : β → String) (ls : List β)
    (buf : List String) (h : buf.length ≤ log_max_lines) :
    (ls.foldl (fun b l => logReaderStep b (decode l)) buf).length ≤ log_max_lines := by
  induction ls generalizing buf with
  | nil => exact h
  | cons a t ih => exact ih _ (logReaderStep_le _ _ h)

/-- C3: over every sequence of raw lines drained by the Log Capture task,
the buffer length never exceeds 1000; and whenever an append would push a
full buffer over the cap, exactly the oldest (head) entry is evicted and
the relative order of the surviving lines is preserved. -/
theorem c3_log_buffer_bounded_fifo {β : Type} (decode : β → String) (rawLines : List β) :
    (logReaderThread decode rawLines).length ≤ log_max_lines
    ∧ (∀ (buf : List String) (s : String),
        buf.length = log_max_lines → pyStrip s ≠ "" →
          logReaderStep buf s = buf.tail ++ [pyStrip s]) := by
  constructor
  · exact foldl_logReaderStep_le decode rawLines [] (by simp)
  · intro buf s hlen hs
    unfold logReaderStep
    dsimp only
    rw [if_neg hs]
    unfold logBufferPush
    dsimp only
    have hc : log_max_lines < (buf ++ [pyStrip s]).length := by
      simp [hlen]
    rw [if_pos hc]
    cases buf with
    | nil => simp [log_max_lines] at hlen
    | cons a t => simp

/-- C3 witness: a concrete short run stays within the cap, and a concrete
full buffer of 1000 lines evicts its head on the next nonempty append. -/
theorem c3_log_buffer_bounded_fifo_witness :
    (logReaderThread (fun s : String => s) ["alpha", "beta"]).length ≤ log_max_lines
    ∧ logReaderStep (List.replicate 1000 "x") "y"
        = (List.replicate 1000 "x").tail ++ [pyStrip "y"] :=
  ⟨(c3_log_buffer_bounded_fifo (fun s : String => s) ["alpha", "beta"]).1,
   (c3_log_buffer_bounded_fifo (fun s : String => s) []).2
     (List.replicate 1000 "x") "y"
     (by rw [List.length_replicate]; rfl) (by decide)⟩

/-- C9 counterexample: a line whose decoded text is whitespace-only is NOT
appended — reading the line " " into an empty buffer leaves the buffer
empty, because the source appends only when the stripped line is nonempty
(`if line_str:` at line 199).  The claim as stated requires every decoded
line to be appended. -/
theorem c9_counterexample :
    logReaderThread (fun s : String => s) [" "] = [] := by
  decide

/-- C9 amended: the Log Capture task processes every line of the stream,
never stopping early; a line whose decoded, whitespace-stripped text is
empty is dropped, and every other line is appended (as its stripped text)
through the bounded push.  Decoding (`errors=replace`) is a total
function, so a malformed line never terminates the task. -/
theorem c9_log_reader_appends {β : Type} (decode : β → String)
    (prior : List β) (l : β) :
    logReaderThread decode (prior ++ [l])
      = logReaderStep (logReaderThread decode prior) (decode l)
    ∧ (pyStrip (decode l) = "" →
        logReaderThread decode (prior ++ [l]) = logReaderThread decode prior)
    ∧ (pyStrip (decode l) ≠ "" →
        logReaderThread decode (prior ++ [l])
          = logBufferPush (logReaderThread decode prior) (pyStrip (decode l))) := by
  have hstep : logReaderThread decode (prior ++ [l])
      = logReaderStep (logReaderThread decode prior) (decode l) := by
    unfold logReaderThread
    rw [List.foldl_append]
    rfl
  refine ⟨hstep, ?_, ?_⟩
  · intro hv
    rw [hstep]
    unfold logReaderStep
    dsimp only
    rw [if_pos hv]
  · intro hv
    rw [hstep]
    unfold logReaderStep
    dsimp only
    rw [if_neg hv]

/-- C9 witness: a concrete whitespace-only line is dropped and a concrete
text line is appended stripped. -/
theorem c9_log_reader_appends_witness :
    logReaderThread (fun s : String => s) (["a"] ++ ["\n"])
        = logReaderThread (fun s : String => s) ["a"]
    ∧ logReaderThread (fun s : String => s) (["a"] ++ [" x "])
        = logBufferPush (logReaderThread (fun s : String => s) ["a"]) (pyStrip " x ") :=
  ⟨(c9_log_reader_appends (fun s : String => s) ["a"] "\n").2.1 (by decide),
   (c9_log_reader_appends (fun s : String => s) ["a"] " x ").2.2 (by decide)⟩

/-! ## Config Store (`load_settings` / `save_settings`, lines 113-142) -/

/-- The settings file name `SETTINGS_FILE_NAME` (line 26). -/
def SETTINGS_FILE_NAME : String := "config.dat"

/-- The unpickled settings dictionary, viewed through the eleven known
configuration keys: each key is either present with a value or absent. -/
structure PartialConfig where
  model_dir : Option String
  backend : Option Backend
  host_ip : Option String
  port : Option String
  allow_lan : Option Bool
  gpu_layers : Option Int
  n_threads : Option Int
  context_size : Option Int
  schedule_time : Option String
  schedule_active : Option Bool
  llama_server_dir : Option String
deriving DecidableEq, Repr

/-- The per-key fallback loop of lines 122-123:
`self.config[key] = settings.get(key, default_value)`. -/
def applySettings (dflt : Config) (p : PartialConfig) : Config :=
  { model_dir := p.model_dir.getD dflt.model_dir
    backend := p.backend.getD dflt.backend
    host_ip := p.host_ip.getD dflt.host_ip
    port := p.port.getD dflt.port
    allow_lan := p.allow_lan.getD dflt.allow_lan
    gpu_layers := p.gpu_layers.getD dflt.gpu_layers
    n_threads := p.n_threads.getD dflt.n_threads
    context_size := p.context_size.getD dflt.context_size
    schedule_time := p.schedule_time.getD dflt.schedule_time
    schedule_active := p.schedule_active.getD dflt.schedule_active
    llama_server_dir := p.llama_server_dir.getD dflt.llama_server_dir }

/-- `load_settings` (lines 113-133).  `fileContent` is the file-system
oracle: `none` when `self.settings_path.exists()` is false, `some none`
when the file exists but `pickle.load` raises, `some (some p)` when it
parses.  The result triple is the in-memory config after the load, the
status message, and the content written back by the unconditional
`save_settings()` call at line 133 (which serializes the full current
config). -/
def load_settings (dflt : Config) (fileContent : Option (Option PartialConfig)) :
    Config × String × Config :=
  match fileContent with
  | none =>
      (dflt, "No persistent settings found. Using defaults.", dflt)
  | some none =>
      (dflt, "Error loading settings. Using defaults.", dflt)
  | some (some p) =>
      let c := applySettings dflt p
      (c, "Settings loaded from " ++ SETTINGS_FILE_NAME ++ ".", c)

/-- Missing keys fall back to the supplied default; present keys take the
stored value. -/
theorem option_fallback {α : Type} (o : Option α) (d : α) :
    (o = none → o.getD d = d) ∧ ∀ v, o = some v → o.getD d = v :=
  ⟨fun h => by simp [h], fun v h => by simp [h]⟩

/-- C8: loading with the settings file absent, or with content that fails
to parse, yields the default Config and immediately persists exactly that
default; loading a parsed dictionary yields, key by key, the stored value
on present keys and the default on missing keys. -/
theorem c8_load_settings_fallback (dflt : Config) (p : PartialConfig) :
    load_settings dflt none = (dflt, "No persistent settings found. Using defaults.", dflt)
    ∧ load_settings dflt (some none)
        = (dflt, "Error loading settings. Using defaults.", dflt)
    ∧ ((p.model_dir = none →
          (load_settings dflt (some (some p))).1.model_dir = dflt.model_dir)
        ∧ ∀ v, p.model_dir = some v → (load_settings dflt (some (some p))).1.model_dir = v)
    ∧ ((p.backend = none →
          (load_settings dflt (some (some p))).1.backend = dflt.backend)
        ∧ ∀ v, p.backend = some v → (load_settings dflt (some (some p))).1.backend = v)
    ∧ ((p.host_ip = none →
          (load_settings dflt (some (some p))).1.host_ip = dflt.host_ip)
        ∧ ∀ v, p.host_ip = some v → (load_settings dflt (some (some p))).1.host_ip = v)
    ∧ ((p.port = none → (load_settings dflt (some (some p))).1.port = dflt.port)
        ∧ ∀ v, p.port = some v → (load_settings dflt (some (some p))).1.port = v)
    ∧ ((p.allow_lan = none →
          (load_settings dflt (some (some p))).1.allow_lan = dflt.allow_lan)
        ∧ ∀ v, p.allow_lan = some v → (load_settings dflt (some (some p))).1.allow_lan = v)
    ∧ ((p.gpu_layers = none →
          (load_settings dflt (some (some p))).1.gpu_layers = dflt.gpu_layers)
        ∧ ∀ v, p.gpu_layers = some v → (load_settings dflt (some (some p))).1.gpu_layers = v)
    ∧ ((p.n_threads = none →
          (load_settings dflt (some (some p))).1.n_threads = dflt.n_threads)
        ∧ ∀ v, p.n_threads = some v → (load_settings dflt (some (some p))).1.n_threads = v)
    ∧ ((p.context_size = none →
          (load_settings dflt (some (some p))).1.context_size = dflt.context_size)
        ∧ ∀ v, p.context_size = some v →
            (load_settings dflt (some (some p))).1.context_size = v)
    ∧ ((p.schedule_time = none →
          (load_settings dflt (some (some p))).1.schedule_time = dflt.schedule_time)
        ∧ ∀ v, p.schedule_time = some v →
            (load_settings dflt (some (some p))).1.schedule_time = v)
    ∧ ((p.schedule_active = none →
          (load_settings dflt (some (some p))).1.schedule_active = dflt.schedule_active)
        ∧ ∀ v, p.schedule_active = some v →
            (load_settings dflt (some (some p))).1.schedule_active = v)
    ∧ ((p.llama_server_dir = none →
          (load_settings dflt (some (some p))).1.llama_server_dir = dflt.llama_server_dir)
        ∧ ∀ v, p.llama_server_dir = some v →
            (load_settings dflt (some (some p))).1.llama_server_dir = v) :=
  ⟨rfl, rfl,
   option_fallback p.model_dir dflt.model_dir,
   option_fallback p.backend dflt.backend,
   option_fallback p.host_ip dflt.host_ip,
   option_fallback p.port dflt.port,
   option_fallback p.allow_lan dflt.allow_lan,
   option_fallback p.gpu_layers dflt.gpu_layers,
   option_fallback p.n_threads dflt.n_threads,
   option_fallback p.context_size dflt.context_size,
   option_fallback p.schedule_time dflt.schedule_time,
   option_fallback p.schedule_active dflt.schedule_active,
   option_fallback p.llama_server_dir dflt.llama_server_dir⟩

/-- A sample parsed settings dictionary with one present key and the rest
absent. -/
def pSample : PartialConfig :=
  { model_dir := some "/other"
    backend := none
    host_ip := none
    port := none
    allow_lan := none
    gpu_layers := none
    n_threads := none
    context_size := none
    schedule_time := none
    schedule_active := none
    llama_server_dir := none }

/-- C8 witness: loading a missing file returns and persists the default
config; loading a file carrying only `model_dir` overrides exactly that
key and defaults the rest. -/
theorem c8_load_settings_fallback_witness :
    load_settings cfgSample none
        = (cfgSample, "No persistent settings found. Using defaults.", cfgSample)
    ∧ (load_settings cfgSample (some (some pSample))).1.model_dir = "/other"
    ∧ (load_settings cfgSample (some (some pSample))).1.backend = cfgSample.backend :=
  ⟨(c8_load_settings_fallback cfgSample pSample).1,
   (c8_load_settings_fallback cfgSample pSample).2.2.1.2 "/other" rfl,
   (c8_load_settings_fallback cfgSample pSample).2.2.2.1.1 rfl⟩

/-! ## TUI Controller: the `run` loop (lines 358-653) as a step machine.

Every mutation the loop can perform on the `LlamaTUI` state is one
`UIEvent`; external effects (file system tests, glob results, process
operations, the clock, typed text) ride on the events as oracle data, so
the set of states reachable by event sequences covers every state the
Python loop can reach. -/

/-- The backend cycle CPU → CUDA → VULKAN → CPU (lines 571-575). -/
def backend_cycle : Backend → Backend
  | Backend.CPU => Backend.CUDA
  | Backend.CUDA => Backend.VULKAN
  | Backend.VULKAN => Backend.CPU

/-- The server-binary-directory edit, shared by the `d` key (lines
539-546) and the Enter handler of field 10 (lines 644-651).  `isdir` is
the oracle for `os.path.isdir` on the prompted value and `abs` the
oracle for its `os.path.abspath`. -/
def set_server_dir (st : AppState) (abs : String) (isdir : Bool) : AppState :=
  if isdir then
    { st with
        config := { st.config with llama_server_dir := abs }
        msg_log := "Llama-server directory updated to: " ++ abs }
  else
    { st with msg_log := "Invalid directory path." }

/-- The model-directory edit of field 1 (lines 561-569): on a valid
directory, store its abspath, refresh the file list (against `listing`),
and set the confirmation message; otherwise only complain. -/
def set_model_dir (st : AppState) (abs : String) (isdir : Bool)
    (listing : Option (List ModelFile)) : AppState :=
  if isdir then
    let st1 := refresh_file_list
      { st with config := { st.config with model_dir := abs } } listing
    { st1 with msg_log := "Directory updated." }
  else
    { st with msg_log := "Invalid directory path." }

/-- The GPU-layers edit of field 3 (lines 577-588); `parsed` is the
result of Python `int(...)` on the prompted text (`none` = ValueError). -/
def set_gpu_layers (st : AppState) (parsed : Option Int) : AppState :=
  match parsed with
  | none => { st with msg_log := "Invalid number format." }
  | some n =>
      if 0 ≤ n then
        { st with
            config := { st.config with gpu_layers := n }
            msg_log := "GPU Layers set to " ++ toString n ++ " (0=auto/CPU only)." }
      else
        { st with msg_log := "Value must be 0 or greater." }

/-- The CPU-threads edit of field 4 (lines 590-601). -/
def set_n_threads (st : AppState) (parsed : Option Int) : AppState :=
  match parsed with
  | none => { st with msg_log := "Invalid number format." }
  | some n =>
      if 1 ≤ n then
        { st with
            config := { st.config with n_threads := n }
            msg_log := "CPU Threads set to " ++ toString n ++ "." }
      else
        { st with msg_log := "Value must be 1 or greater." }

/-- The context-size edit of field 5 (lines 603-614). -/
def set_context_size (st : AppState) (parsed : Option Int) : AppState :=
  match parsed with
  | none => { st with msg_log := "Invalid number format." }
  | some n =>
      if 512 ≤ n then
        { st with
            config := { st.config with context_size := n }
            msg_log := "Context Size set to " ++ toString n ++ "." }
      else
        { st with msg_log := "Value must be at least 512." }

/-- The arrow-up handler (lines 552-554): move the cursor only when focus
is on the model list and the cursor is not already at the top. -/
def key_up (st : AppState) : AppState :=
  if st.active_field = 0 ∧ 0 < st.selected_file_idx then
    { st with selected_file_idx := st.selected_file_idx - 1 }
  else st

/-- The arrow-down handler (lines 556-558). -/
def key_down (st : AppState) : AppState :=
  if st.active_field = 0 ∧ st.selected_file_idx < (st.files.length : Int) - 1 then
    { st with selected_file_idx := st.selected_file_idx + 1 }
  else st

/-- The viewport adjustment performed while drawing the list (lines
414-418), with `maxItems` the terminal-height-dependent window size. -/
def render_scroll (st : AppState) (maxItems : Int) : AppState :=
  if st.selected_file_idx < st.file_offset then
    { st with file_offset := st.selected_file_idx }
  else if st.file_offset + maxItems ≤ st.selected_file_idx then
    { st with file_offset := st.selected_file_idx - maxItems + 1 }
  else st

/-- `check_schedule` (lines 313-318): on an idle tick with the schedule
active, an exact match of the wall-clock "HH:MM" with the stored time
fires `start_server`.  `none` propagates the modelled crash of
`start_server`. -/
def check_schedule (st : AppState) (now : String) (binOk : Bool) (spawn : Option Int) :
    Option AppState :=
  if st.config.schedule_active ∧ st.server_process = none then
    if now = st.config.schedule_time then
      match start_server st binOk spawn with
      | none => none
      | some (st1, m) => some { st1 with msg_log := m }
    else some st
  else some st

/-- One interaction of the `run` loop together with its oracle data. -/
inductive UIEvent where
  | noKey
  | quitKey (ok1 ok2 : Bool) (err : String)
  | killKey (ok1 ok2 : Bool) (err : String)
  | startKey (binOk : Bool) (spawn : Option Int)
  | viewLogKey
  | nvidiaKey
  | serverDirKey (abs : String) (isdir : Bool)
  | tabKey
  | upKey
  | downKey
  | enterModelDir (abs : String) (isdir : Bool) (listing : Option (List ModelFile))
  | enterBackend
  | enterGpuLayers (parsed : Option Int)
  | enterThreads (parsed : Option Int)
  | enterContext (parsed : Option Int)
  | enterHostIp (raw : String)
  | enterPort (raw : String)
  | enterLan
  | enterSchedule (raw : String)
  | renderTick (maxItems : Int)
  | schedTick (now : String) (binOk : Bool) (spawn : Option Int)

/-- One iteration of the `run` loop (lines 358-653).  When a modal view is
up, any keypress only dismisses it (lines 362-388); otherwise the key is
dispatched, with the Enter handlers guarded by the focused field.  The
`none` result is the modelled uncaught IndexError of `start_server`. -/
def step (st : AppState) (e : UIEvent) : Option AppState :=
  if st.running = false then some st
  else if st.show_nvidia_smi then
    match e with
    | UIEvent.noKey => some st
    | _ => some { st with show_nvidia_smi := false }
  else if st.show_log then
    match e with
    | UIEvent.noKey => some st
    | _ => some { st with show_log := false }
  else
    match e with
    | UIEvent.noKey => some st
    | UIEvent.quitKey ok1 ok2 err =>
        some { (kill_server st ok1 ok2 err).1 with running := false }
    | UIEvent.killKey ok1 ok2 err =>
        some { (kill_server st ok1 ok2 err).1 with
                 msg_log := (kill_server st ok1 ok2 err).2 }
    | UIEvent.startKey binOk spawn =>
        match start_server st binOk spawn with
        | none => none
        | some (st1, m) => some { st1 with msg_log := m }
    | UIEvent.viewLogKey =>
        if st.server_process.isSome then some { st with show_log := true }
        else some { st with msg_log := "Server is not running. Start it first." }
    | UIEvent.nvidiaKey => some { st with show_nvidia_smi := true }
    | UIEvent.serverDirKey abs isdir => some (set_server_dir st abs isdir)
    | UIEvent.tabKey => some { st with active_field := (st.active_field + 1) % 11 }
    | UIEvent.upKey => some (key_up st)
    | UIEvent.downKey => some (key_down st)
    | UIEvent.enterModelDir abs isdir listing =>
        if st.active_field = 1 then some (set_model_dir st abs isdir listing) else some st
    | UIEvent.enterBackend =>
        if st.active_field = 2 then
          some { st with config := { st.config with backend := backend_cycle st.config.backend } }
        else some st
    | UIEvent.enterGpuLayers parsed =>
        if st.active_field = 3 then some (set_gpu_layers st parsed) else some st
    | UIEvent.enterThreads parsed =>
        if st.active_field = 4 then some (set_n_threads st parsed) else some st
    | UIEvent.enterContext parsed =>
        if st.active_field = 5 then some (set_context_size st parsed) else some st
    | UIEvent.enterHostIp raw =>
        if st.active_field = 6 then
          some { st with config := { st.config with
                   host_ip := input_string raw st.config.host_ip } }
        else some st
    | UIEvent.enterPort raw =>
        if st.active_field = 7 then
          some { st with config := { st.config with
                   port := input_string raw st.config.port } }
        else some st
    | UIEvent.enterLan =>
        if st.active_field = 8 then
          some { st with config := { st.config with allow_lan := !st.config.allow_lan } }
        else some st
    | UIEvent.enterSchedule raw =>
        if st.active_field = 9 then some (schedule_toggle st raw) else some st
    | UIEvent.renderTick maxItems => some (render_scroll st maxItems)
    | UIEvent.schedTick now binOk spawn => check_schedule st now binOk spawn

/-- The `__init__` state (lines 30-90): defaults and loaded settings in
`cfg`, cursors zeroed, followed by the constructor's initial
`refresh_file_list()` against the oracle `listing`. -/
def initState (cfg : Config) (listing : Option (List ModelFile)) : AppState :=
  refresh_file_list
    { running := true
      server_process := none
      running_model_path := none
      log_buffer := []
      show_log := false
      show_nvidia_smi := false
      config := cfg
      active_field := 0
      selected_file_idx := 0
      file_offset := 0
      files := []
      msg_log := "Welcome. Select a model and press \x27S\x27 to serve." }
    listing

/-- Run a sequence of loop iterations; `none` once any iteration crashes. -/
def runEvents (st : AppState) (events : List UIEvent) : Option AppState :=
  match events with
  | [] => some st
  | e :: rest =>
      match step st e with
      | none => none
      | some st1 => runEvents st1 rest

/-- The selection-safety invariant: whenever the file list is nonempty,
the cursor is a valid index into it. -/
def SelInv (st : AppState) : Prop :=
  st.files ≠ [] → 0 ≤ st.selected_file_idx
    ∧ st.selected_file_idx < (st.files.length : Int)

/-- A Python index that is nonnegative and below the length hits an
element. -/
theorem pyIndex_isSome {α : Type} (l : List α) (i : Int)
    (h0 : 0 ≤ i) (hl : i < (l.length : Int)) : (pyIndex l i).isSome := by
  unfold pyIndex
  dsimp only
  rw [if_neg (show ¬ i < 0 by omega)]
  rw [if_pos ⟨h0, hl⟩]
  rw [List.getElem?_eq_getElem (show i.toNat < l.length by omega)]
  rfl

/-- `kill_server` never touches the file list or the cursor. -/
theorem kill_server_preserves (st : AppState) (ok1 ok2 : Bool) (err : String) :
    (kill_server st ok1 ok2 err).1.files = st.files
    ∧ (kill_server st ok1 ok2 err).1.selected_file_idx = st.selected_file_idx := by
  unfold kill_server
  cases st.server_process <;> cases ok1 <;> cases ok2 <;> simp

/-- Under the selection invariant, `start_server` always returns a state
(the IndexError branch is unreachable) and never touches the file list or
the cursor. -/
theorem start_server_some (st : AppState) (binOk : Bool) (spawn : Option Int)
    (hinv : SelInv st) :
    ∃ st1 m, start_server st binOk spawn = some (st1, m)
      ∧ st1.files = st.files ∧ st1.selected_file_idx = st.selected_file_idx := by
  unfold start_server
  by_cases h1 : st.server_process.isSome
  · rw [if_pos h1]
    exact ⟨st, _, rfl, rfl, rfl⟩
  · rw [if_neg h1]
    by_cases h2 : st.files = []
    · rw [if_pos h2]
      exact ⟨st, _, rfl, rfl, rfl⟩
    · rw [if_neg h2]
      cases binOk with
      | false =>
          rw [if_pos (by decide)]
          exact ⟨st, _, rfl, rfl, rfl⟩
      | true =>
          rw [if_neg (by decide)]
          obtain ⟨hge, hlt⟩ := hinv h2
          obtain ⟨f, hf⟩ := Option.isSome_iff_exists.mp (pyIndex_isSome st.files _ hge hlt)
          rw [hf]
          cases spawn with
          | none => exact ⟨st, _, rfl, rfl, rfl⟩
          | some pid => exact ⟨_, _, rfl, rfl, rfl⟩

/-- Under the selection invariant, a schedule tick always returns a state
and never touches the file list or the cursor. -/
theorem check_schedule_some (st : AppState) (now : String) (binOk : Bool)
    (spawn : Option Int) (hinv : SelInv st) :
    ∃ st1, check_schedule st now binOk spawn = some st1
      ∧ st1.files = st.files ∧ st1.selected_file_idx = st.selected_file_idx := by
  unfold check_schedule
  by_cases h1 : st.config.schedule_active = true ∧ st.server_process = none
  · rw [if_pos h1]
    by_cases h2 : now = st.config.schedule_time
    · rw [if_pos h2]
      obtain ⟨st1, m, he, hfi, hid⟩ := start_server_some st binOk spawn hinv
      rw [he]
      exact ⟨_, rfl, hfi, hid⟩
    · rw [if_neg h2]
      exact ⟨st, rfl, rfl, rfl⟩
  · rw [if_neg h1]
    exact ⟨st, rfl, rfl, rfl⟩

/-- Every refresh outcome re-establishes the selection invariant: on
success the cursor is reset to zero, on failure the list is empty. -/
theorem SelInv_refresh (st : AppState) (listing : Option (List ModelFile)) :
    SelInv (refresh_file_list st listing) := by
  cases listing with
  | none =>
      intro h
      simp [refresh_file_list] at h
  | some found =>
      intro h
      unfold refresh_file_list at h ⊢
      dsimp only at h ⊢
      refine ⟨le_refl 0, ?_⟩
      exact_mod_cast List.length_pos.mpr h

/-- Each loop iteration preserves the selection invariant and never
crashes. -/
theorem step_SelInv (st : AppState) (e : UIEvent) (hinv : SelInv st) :
    ∃ st1, step st e = some st1 ∧ SelInv st1 := by
  unfold step
  by_cases hrun : st.running = false
  · rw [if_pos hrun]
    exact ⟨st, rfl, hinv⟩
  · rw [if_neg hrun]
    by_cases hnv : st.show_nvidia_smi = true
    · rw [if_pos hnv]
      cases e <;> exact ⟨_, rfl, hinv⟩
    · rw [if_neg hnv]
      by_cases hlg : st.show_log = true
      · rw [if_pos hlg]
        cases e <;> exact ⟨_, rfl, hinv⟩
      · rw [if_neg hlg]
        cases e with
        | noKey =>
            dsimp only
            exact ⟨st, rfl, hinv⟩
        | quitKey ok1 ok2 err =>
            dsimp only
            obtain ⟨hf, hi⟩ := kill_server_preserves st ok1 ok2 err
            refine ⟨_, rfl, ?_⟩
            intro h
            dsimp only at h ⊢
            rw [hf, hi] at *
            exact hinv h
        | killKey ok1 ok2 err =>
            dsimp only
            obtain ⟨hf, hi⟩ := kill_server_preserves st ok1 ok2 err
            refine ⟨_, rfl, ?_⟩
            intro h
            dsimp only at h ⊢
            rw [hf, hi] at *
            exact hinv h
        | startKey binOk spawn =>
            dsimp only
            obtain ⟨st1, m, he, hf, hi⟩ := start_server_some st binOk spawn hinv
            rw [he]
            refine ⟨_, rfl, ?_⟩
            intro h
            dsimp only at h ⊢
            rw [hf, hi] at *
            exact hinv h
        | viewLogKey =>
            dsimp only
            by_cases hs : st.server_process.isSome
            · rw [if_pos hs]
              exact ⟨_, rfl, hinv⟩
            · rw [if_neg hs]
              exact ⟨_, rfl, hinv⟩
        | nvidiaKey =>
            dsimp only
            exact ⟨_, rfl, hinv⟩
        | serverDirKey abs isdir =>
            dsimp only
            unfold set_server_dir
            by_cases hd : isdir = true
            · rw [if_pos hd]
              exact ⟨_, rfl, hinv⟩
            · rw [if_neg hd]
              exact ⟨_, rfl, hinv⟩
        | tabKey =>
            dsimp only
            exact ⟨_, rfl, hinv⟩
        | upKey =>
            dsimp only
            unfold key_up
            by_cases hc : st.active_field = 0 ∧ 0 < st.selected_file_idx
            · rw [if_pos hc]
              refine ⟨_, rfl, ?_⟩
              intro h
              dsimp only at h ⊢
              obtain ⟨h0, hl⟩ := hinv h
              omega
            · rw [if_neg hc]
              exact ⟨_, rfl, hinv⟩
        | downKey =>
            dsimp only
            unfold key_down
            by_cases hc : st.active_field = 0
                ∧ st.selected_file_idx < (st.files.length : Int) - 1
            · rw [if_pos hc]
              refine ⟨_, rfl, ?_⟩
              intro h
              dsimp only at h ⊢
              obtain ⟨h0, hl⟩ := hinv h
              omega
            · rw [if_neg hc]
              exact ⟨_, rfl, hinv⟩
        | enterModelDir abs isdir listing =>
            dsimp only
            by_cases ha : st.active_field = 1
            · rw [if_pos ha]
              unfold set_model_dir
              by_cases hd : isdir = true
              · rw [if_pos hd]
                refine ⟨_, rfl, ?_⟩
                intro h
                dsimp only at h ⊢
                exact SelInv_refresh _ listing h
              · rw [if_neg hd]
                exact ⟨_, rfl, hinv⟩
            · rw [if_neg ha]
              exact ⟨st, rfl, hinv⟩
        | enterBackend =>
            dsimp only
            by_cases ha : st.active_field = 2
            · rw [if_pos ha]
              exact ⟨_, rfl, hinv⟩
            · rw [if_neg ha]
              exact ⟨st, rfl, hinv⟩
        | enterGpuLayers parsed =>
            dsimp only
            by_cases ha : st.active_field = 3
            · rw [if_pos ha]
              unfold set_gpu_layers
              cases parsed with
              | none => exact ⟨_, rfl, hinv⟩
              | some n =>
                  dsimp only
                  by_cases hn : 0 ≤ n
                  · rw [if_pos hn]; exact ⟨_, rfl, hinv⟩
                  · rw [if_neg hn]; exact ⟨_, rfl, hinv⟩
            · rw [if_neg ha]
              exact ⟨st, rfl, hinv⟩
        | enterThreads parsed =>
            dsimp only
            by_cases ha : st.active_field = 4
            · rw [if_pos ha]
              unfold set_n_threads
              cases parsed with
              | none => exact ⟨_, rfl, hinv⟩
              | some n =>
                  dsimp only
                  by_cases hn : 1 ≤ n
                  · rw [if_pos hn]; exact ⟨_, rfl, hinv⟩
                  · rw [if_neg hn]; exact ⟨_, rfl, hinv⟩
            · rw [if_neg ha]
              exact ⟨st, rfl, hinv⟩
        | enterContext parsed =>
            dsimp only
            by_cases ha : st.active_field = 5
            · rw [if_pos ha]
              unfold set_context_size
              cases parsed with
              | none => exact ⟨_, rfl, hinv⟩
              | some n =>
                  dsimp only
                  by_cases hn : 512 ≤ n
                  · rw [if_pos hn]; exact ⟨_, rfl, hinv⟩
                  · rw [if_neg hn]; exact ⟨_, rfl, hinv⟩
            · rw [if_neg ha]
              exact ⟨st, rfl, hinv⟩
        | enterHostIp raw =>
            dsimp only
            by_cases ha : st.active_field = 6
            · rw [if_pos ha]
              exact ⟨_, rfl, hinv⟩
            · rw [if_neg ha]
              exact ⟨st, rfl, hinv⟩
        | enterPort raw =>
            dsimp only
            by_cases ha : st.active_field = 7
            · rw [if_pos ha]
              exact ⟨_, rfl, hinv⟩
            · rw [if_neg ha]
              exact ⟨st, rfl, hinv⟩
        | enterLan =>
            dsimp only
            by_cases ha : st.active_field = 8
            · rw [if_pos ha]
              exact ⟨_, rfl, hinv⟩
            · rw [if_neg ha]
              exact ⟨st, rfl, hinv⟩
        | enterSchedule raw =>
            dsimp only
            by_cases ha : st.active_field = 9
            · rw [if_pos ha]
              unfold schedule_toggle
              by_cases hs : st.config.schedule_active = true
              · rw [if_pos hs]
                exact ⟨_, rfl, hinv⟩
              · rw [if_neg hs]
                dsimp only
                by_cases hv : hmValid (input_string raw "08:00") = true
                · rw [if_pos hv]
                  exact ⟨_, rfl, hinv⟩
                · rw [if_neg hv]
                  exact ⟨_, rfl, hinv⟩
            · rw [if_neg ha]
              exact ⟨st, rfl, hinv⟩
        | renderTick maxItems =>
            dsimp only
            unfold render_scroll
            by_cases hc : st.selected_file_idx < st.file_offset
            · rw [if_pos hc]
              exact ⟨_, rfl, hinv⟩
            · rw [if_neg hc]
              by_cases hc2 : st.file_offset + maxItems ≤ st.selected_file_idx
              · rw [if_pos hc2]
                exact ⟨_, rfl, hinv⟩
              · rw [if_neg hc2]
                exact ⟨_, rfl, hinv⟩
        | schedTick now binOk spawn =>
            dsimp only
            obtain ⟨st1, he, hf, hi⟩ := check_schedule_some st now binOk spawn hinv
            rw [he]
            refine ⟨st1, rfl, ?_⟩
            intro h
            rw [hf, hi] at *
            exact hinv h

/-- The invariant carries over any event sequence. -/
theorem runEvents_SelInv (events : List UIEvent) :
    ∀ st : AppState, SelInv st →
      ∃ st1, runEvents st events = some st1 ∧ SelInv st1 := by
  induction events with
  | nil => exact fun st h => ⟨st, rfl, h⟩
  | cons e rest ih =>
      intro st h
      obtain ⟨st1, he, h1⟩ := step_SelInv st e h
      obtain ⟨st2, hr, h2⟩ := ih st1 h1
      refine ⟨st2, ?_, h2⟩
      unfold runEvents
      rw [he]
      exact hr

/-- C10: in every state the TUI loop can reach from startup — under any
interleaving of key presses, ticks and oracle outcomes — a nonempty model
list implies `0 ≤ selected_file_idx < files.length`, so the
`files[selected_file_idx]` read inside `start_server` is always in
bounds and the modelled IndexError never fires. -/
theorem c10_selection_always_in_bounds (cfg : Config)
    (listing : Option (List ModelFile)) (events : List UIEvent) :
    ∃ st : AppState, runEvents (initState cfg listing) events = some st
      ∧ (st.files ≠ [] → 0 ≤ st.selected_file_idx
          ∧ st.selected_file_idx < (st.files.length : Int)
          ∧ (pyIndex st.files st.selected_file_idx).isSome) := by
  obtain ⟨st, he, hinv⟩ :=
    runEvents_SelInv events (initState cfg listing) (SelInv_refresh _ listing)
  refine ⟨st, he, fun h => ?_⟩
  obtain ⟨h0, hl⟩ := hinv h
  exact ⟨h0, hl, pyIndex_isSome st.files st.selected_file_idx h0 hl⟩

end LlamaTUI
